import Mathlib

/-!
Verification of the reverse-proxy request-distribution and routing engine
(`server.ts`, `server-schema.ts`, `config.ts` and the `config-schema.ts`
listing in the project README).

The source is shallowly embedded: JavaScript values exchanged over IPC are
modelled by an inductive `Json` type, the zod schemas by parsing functions
`Json → Option _`, and the worker / dispatcher handlers by pure functions.
`Option.none` in a handler's result models "no reply is ever sent" (e.g. an
unhandled error event).  The asynchronous upstream call is modelled by an
explicit `ForwardOutcome` argument giving the outcome of the outbound request.
-/

namespace ReverseProxy

/-- A JavaScript value produced by `JSON.parse`: the messages exchanged between
the master (dispatcher) process and the worker processes, and the configuration
object, are all of this shape.  Numbers are modelled as integers (every numeric
field used by the program — ports and worker counts — is integral). -/
inductive Json where
  | null
  | bool (b : Bool)
  | num (n : Int)
  | str (s : String)
  | arr (elems : List Json)
  | obj (fields : List (String × Json))

/-- Property access on a parsed JSON value.  `JSON.parse` keeps the last
occurrence of a duplicated key, hence the search over the reversed field list;
access on a non-object gives `none` (JS `undefined`). -/
def Json.getField : Json → String → Option Json
  | .obj fields, key => (fields.reverse.find? (fun f => f.1 == key)).map (fun f => f.2)
  | _, _ => none

/-- zod `z.string()`: accepts exactly strings. -/
def zodString : Json → Option String
  | .str s => some s
  | _ => none

/-- zod `z.number()`: accepts numbers (modelled as integers, see `Json`). -/
def zodNumber : Json → Option Int
  | .num n => some n
  | _ => none

/-- zod `.optional()` applied to a field: an absent field parses to `none`;
a present field must satisfy the underlying schema (`null` does not count as
absent). -/
def zodOptionalField (p : Json → Option α) : Option Json → Option (Option α)
  | none => some none
  | some j => (p j).map some

/-- zod `z.array(p)`: an array whose every element parses under `p`. -/
def zodArray (p : Json → Option α) : Json → Option (List α)
  | .arr elems => elems.mapM p
  | _ => none

/-- `z.enum(["500", "404"])` from `workerMessageReplySchema`
(server-schema.ts line 153): exactly the strings "500" and "404" are accepted. -/
def zodErrorCodeEnum : Json → Option String
  | .str s => if s == "500" || s == "404" then some s else none
  | _ => none

/-- `z.enum(["HTTP"])` from `workerMessageSchema` (server-schema.ts line 144). -/
def zodRequestTypeEnum : Json → Option String
  | .str s => if s == "HTTP" then some s else none
  | _ => none

/-- An upstream entry of the configuration (`upstreamSchema` in the
config-schema.ts listing of the README): `{id: string, url: string}`. -/
structure Upstream where
  id : String
  url : String
deriving DecidableEq, Repr

/-- A header entry of the configuration (`headerSchema`): `{key, value}`. -/
structure Header where
  key : String
  value : String
deriving DecidableEq, Repr

/-- A routing rule of the configuration (`ruleSchema`):
`{path: string, upstreams: string[]}`. -/
structure Rule where
  path : String
  upstreams : List String
deriving DecidableEq, Repr

/-- The `server` object of the configuration (`serverSchema`). -/
structure ServerSchema where
  listen : Int
  workers : Option Int
  upstreams : List Upstream
  headers : Option (List Header)
  rules : List Rule
deriving DecidableEq, Repr

/-- The validated configuration (`ConfigSchemaType = z.infer<rootConfigSchema>`). -/
structure ConfigSchemaType where
  server : ServerSchema
deriving DecidableEq, Repr

def parseUpstream (j : Json) : Option Upstream := do
  let id ← j.getField "id" >>= zodString
  let url ← j.getField "url" >>= zodString
  some ⟨id, url⟩

def parseHeaderEntry (j : Json) : Option Header := do
  let key ← j.getField "key" >>= zodString
  let value ← j.getField "value" >>= zodString
  some ⟨key, value⟩

def parseRule (j : Json) : Option Rule := do
  let path ← j.getField "path" >>= zodString
  let upstreams ← j.getField "upstreams" >>= zodArray zodString
  some ⟨path, upstreams⟩

def parseServerSchema (j : Json) : Option ServerSchema := do
  let listen ← j.getField "listen" >>= zodNumber
  let workers ← zodOptionalField zodNumber (j.getField "workers")
  let upstreams ← j.getField "upstreams" >>= zodArray parseUpstream
  let headers ← zodOptionalField (zodArray parseHeaderEntry) (j.getField "headers")
  let rules ← j.getField "rules" >>= zodArray parseRule
  some ⟨listen, workers, upstreams, headers, rules⟩

/-- Modelled from the spec: `rootConfigSchema.parseAsync`.  The file
`config-schema.ts` is not present in the sources; this definition follows its
verbatim listing in the repository README (section "Configuration Validation"):
`z.object` with a required `server` object holding `listen: z.number()`,
`workers: z.number().optional()`, `upstreams: z.array(upstreamSchema)`,
`headers: z.array(headerSchema).optional()` and `rules: z.array(ruleSchema)`. -/
def parseRootConfig (j : Json) : Option ConfigSchemaType :=
  (j.getField "server" >>= parseServerSchema).map ConfigSchemaType.mk

/-- The internal reply message, Worker → Dispatcher
(`WorkerMessageReplySchemaType`, server-schema.ts lines 150–154):
`{data?: string, error?: string, errorCode?: "500"|"404"}`. -/
structure WorkerMessageReply where
  data : Option String
  error : Option String
  errorCode : Option String
deriving DecidableEq, Repr

/-- `workerMessageReplySchema.parseAsync` (server-schema.ts lines 150–154):
an object with three optional fields, `data` and `error` strings and
`errorCode` drawn from the enum `["500", "404"]`.  zod strips unknown keys,
so any other field of the incoming object is discarded. -/
def parseWorkerMessageReply (j : Json) : Option WorkerMessageReply :=
  match j with
  | .obj _ => do
    let data ← zodOptionalField zodString (j.getField "data")
    let error ← zodOptionalField zodString (j.getField "error")
    let errorCode ← zodOptionalField zodErrorCodeEnum (j.getField "errorCode")
    some ⟨data, error, errorCode⟩
  | _ => none

/-- The internal dispatch message, Dispatcher → Worker
(`WorkerMessageSchemaType`, server-schema.ts lines 143–148), restricted to the
fields the worker reads: `requestType` (enum `["HTTP"]`) and `url` (string).
The `headers` and `body` fields are `z.any()` — unconstrained and never read by
the worker — and are therefore not carried in the model. -/
structure WorkerMessage where
  requestType : String
  url : String
deriving DecidableEq, Repr

/-- `workerMessageSchema.parseAsync` (server-schema.ts lines 143–148) on the
modelled fields. -/
def parseWorkerMessage (j : Json) : Option WorkerMessage := do
  let rt ← j.getField "requestType" >>= zodRequestTypeEnum
  let url ← j.getField "url" >>= zodString
  some ⟨rt, url⟩

/-! ### The rule-matching regex

The worker matches a request URL against a rule by building a regular
expression from the rule's `path` (server.ts lines 84–87):

  `const regex = new RegExp("^" + e.path + ".*$"); return regex.test(requestURL);`

We embed the JavaScript regex semantics for the fragment of patterns consisting
of literal characters, the `.` metacharacter, and backslash-escaped punctuation.
A rule path using regex syntax outside this fragment (quantifiers, groups,
classes, alternation, anchors, alphanumeric escape classes) is outside the
model: `parseRegexFragment` rejects it, and every theorem quantifying over rule
paths assumes membership in the fragment. -/

/-- One atom of the modelled regex fragment: a literal character or `.`. -/
inductive RegexAtom where
  | lit (c : Char)
  | dot
deriving DecidableEq, Repr

/-- ECMAScript line terminators: `.` matches any character except these. -/
def isLineTerminator (c : Char) : Bool :=
  c == '\n' || c == '\r' || c == Char.ofNat 0x2028 || c == Char.ofNat 0x2029

def atomMatches : RegexAtom → Char → Bool
  | .lit c, d => c == d
  | .dot, d => !(isLineTerminator d)

/-- Regex metacharacters other than `.` and the backslash: a pattern containing
one of these (unescaped) uses regex syntax outside the modelled fragment. -/
def regexSpecialChar (c : Char) : Bool :=
  c == '*' || c == '+' || c == '?' || c == '(' || c == ')' || c == '[' ||
  c == ']' || c == '{' || c == '}' || c == '|' || c == '^' || c == '$'

/-- Interpret a rule path as a regex pattern within the modelled fragment:
`.` becomes the any-character atom, a backslash escapes the following
punctuation character to a literal, every other non-special character is a
literal.  `none` for patterns outside the fragment. -/
def parseRegexFragment : List Char → Option (List RegexAtom)
  | [] => some []
  | c :: cs =>
    if c == '\\' then
      match cs with
      | [] => none
      | d :: cs2 =>
        if d.isAlphanum then none
        else (parseRegexFragment cs2).map (fun atoms => RegexAtom.lit d :: atoms)
    else if c == '.' then
      (parseRegexFragment cs).map (fun atoms => RegexAtom.dot :: atoms)
    else if regexSpecialChar c then none
    else (parseRegexFragment cs).map (fun atoms => RegexAtom.lit c :: atoms)

/-- Matching of the anchored pattern `^atoms.*$` against a string (as its list
of characters): the atoms must match consecutively from position 0, and the
trailing `.*$` requires every remaining character to be a non-line-terminator
(`.` cannot cross a line terminator, and `$` only matches at the end). -/
def matchAtomsThenDotStar : List RegexAtom → List Char → Bool
  | [], s => s.all (fun c => !(isLineTerminator c))
  | _ :: _, [] => false
  | a :: atoms, c :: s => atomMatches a c && matchAtomsThenDotStar atoms s

/-- `new RegExp("^" + path + ".*$").test(requestURL)` (server.ts lines 85–86)
for rule paths within the modelled regex fragment; `false` outside it
(theorems quantifying over rule paths assume `(parseRegexFragment
path.data).isSome`). -/
def ruleMatches (path requestURL : String) : Bool :=
  match parseRegexFragment path.data with
  | some atoms => matchAtomsThenDotStar atoms requestURL.data
  | none => false

/-- Rule resolution (server.ts lines 84–87): the first rule of
`config.server.rules`, in declaration order, whose path-derived regex matches
the request URL. -/
def findRule (config : ConfigSchemaType) (requestURL : String) : Option Rule :=
  config.server.rules.find? (fun e => ruleMatches e.path requestURL)

/-- Upstream lookup (server.ts lines 100–102):
`config.server.upstreams.find((u) => u.id === upstreamID)`, where `upstreamID`
is `rule?.upstreams[0]` and may be `undefined` (modelled as `none`, equal to no
string id). -/
def findUpstream (config : ConfigSchemaType) (upstreamID : Option String) : Option Upstream :=
  config.server.upstreams.find? (fun u => some u.id == upstreamID)

/-- End-to-end upstream resolution as the worker performs it (server.ts
lines 84–102): match a rule, take the head of its `upstreams` list, look the
id up in the configured upstreams. -/
def resolveUpstream (config : ConfigSchemaType) (requestURL : String) : Option Upstream :=
  match findRule config requestURL with
  | none => none
  | some rule => findUpstream config rule.upstreams.head?

/-- The outcome of the worker's outbound `http.request` to the upstream
(server.ts lines 114–137): either the proxied response completes and its body
chunks are aggregated into a string, or the request fails (connection error). -/
inductive ForwardOutcome where
  | response (body : String)
  | connectionError (reason : String)
deriving DecidableEq, Repr

/-- The reply built when no rule matches (server.ts lines 89–97). -/
def ruleNotFoundReply : WorkerMessageReply :=
  { data := none, error := some "Rule not found", errorCode := some "404" }

/-- The reply built when the resolved upstream id is not configured
(server.ts lines 104–112). -/
def upstreamNotFoundReply : WorkerMessageReply :=
  { data := none, error := some "Upstream server not found", errorCode := some "500" }

/-- The worker's handling of one validated dispatch message (server.ts
lines 83–138).  `forward` gives the outcome of the outbound upstream request.
The result is the reply the worker sends back over IPC, or `none` when no
reply is ever sent: on a connection error the source installs no `error`
listener on the outbound request — there is no reply path, the error event is
an unhandled exception in the worker process.  (The `if (process.send)` guards
of the source are always taken: a cluster worker always has `process.send`.) -/
def workerHandleMessage (config : ConfigSchemaType) (msg : WorkerMessage)
    (forward : Upstream → String → ForwardOutcome) : Option WorkerMessageReply :=
  match findRule config msg.url with
  | none => some ruleNotFoundReply
  | some rule =>
    match findUpstream config rule.upstreams.head? with
    | none => some upstreamNotFoundReply
    | some upstream =>
      match forward upstream msg.url with
      | .response body => some { data := some body, error := none, errorCode := none }
      | .connectionError _ => none

/-- The worker's `process.on("message")` handler (server.ts lines 77–138)
including schema validation of the incoming message: a message rejected by
`workerMessageSchema` makes `parseAsync` reject, the handler aborts and no
reply is sent. -/
def workerOnMessage (config : ConfigSchemaType) (message : Json)
    (forward : Upstream → String → ForwardOutcome) : Option WorkerMessageReply :=
  match parseWorkerMessage message with
  | none => none
  | some msg => workerHandleMessage config msg forward

/-- Worker-process startup (server.ts lines 70–77): the worker parses the
configuration delivered through the process environment
(`rootConfigSchema.parseAsync(JSON.parse(process.env.config))`) into a local
binding that is never used again, then installs the message handler — which
reads only the `config` argument of `createServer`.  `none` models the worker
failing at startup when the environment value does not validate. -/
def workerStart (config : ConfigSchemaType) (envConfig : Json) :
    Option (Json → (Upstream → String → ForwardOutcome) → Option WorkerMessageReply) :=
  (parseRootConfig envConfig).map
    (fun _configuration => fun message forward => workerOnMessage config message forward)

/-! ### Dispatcher side -/

/-- JavaScript truthiness of a string-or-undefined value, as used by
`if (reply.errorCode)` (server.ts line 52): `undefined` and the empty string
are falsy. -/
def jsTruthyString : Option String → Bool
  | none => false
  | some s => !(s == "")

def parseDecimalDigits : List Char → Nat → Nat
  | [], acc => acc
  | c :: cs, acc => parseDecimalDigits cs (acc * 10 + (c.toNat - 48))

def isHexDigitChar (c : Char) : Bool :=
  c.isDigit || ('a' ≤ c && c ≤ 'f') || ('A' ≤ c && c ≤ 'F')

def hexDigitVal (c : Char) : Nat :=
  if c.isDigit then c.toNat - 48
  else if 'a' ≤ c then c.toNat - 87
  else c.toNat - 55

def parseHexDigits : List Char → Nat → Nat
  | [], acc => acc
  | c :: cs, acc => parseHexDigits cs (acc * 16 + hexDigitVal c)

def jsWhitespace (c : Char) : Bool :=
  c == ' ' || c == '\t' || c == '\n' || c == '\r' || c == '\x0b' || c == '\x0c'

/-- JavaScript `parseInt(s)` with no radix argument: skip leading whitespace,
read an optional sign, then either a `0x`/`0X` hexadecimal literal or a run of
decimal digits, stopping at the first character that is not a digit.  `none`
models `NaN` (no digits found). -/
def jsParseInt (s : String) : Option Int :=
  let t := s.data.dropWhile jsWhitespace
  let signAndRest : Int × List Char :=
    match t with
    | '-' :: r => (-1, r)
    | '+' :: r => (1, r)
    | r => (1, r)
  let sign := signAndRest.1
  match signAndRest.2 with
  | '0' :: x :: r =>
    if x == 'x' || x == 'X' then
      match r with
      | c :: _ =>
        if isHexDigitChar c then
          some (sign * (parseHexDigits (r.takeWhile isHexDigitChar) 0 : Nat))
        else none
      | [] => none
    else some (sign * (parseDecimalDigits (('0' :: x :: r).takeWhile Char.isDigit) 0 : Nat))
  | c :: _ =>
    if c.isDigit then
      some (sign * (parseDecimalDigits (signAndRest.2.takeWhile Char.isDigit) 0 : Nat))
    else none
  | [] => none

/-- The HTTP response the dispatcher writes to the client:
`res.writeHead(status); res.end(body)` with `body = undefined` modelled as
`none` (empty body). -/
structure HttpResponse where
  status : Int
  body : Option String
deriving DecidableEq, Repr

/-- The dispatcher's handling of a parsed worker reply (server.ts lines 52–58):
a truthy `errorCode` gives `writeHead(parseInt(reply.errorCode))` with
`reply.error` as body, otherwise status 200 with `reply.data` as body.
`none` models `writeHead(NaN)` throwing (unreachable for schema-valid
replies, whose `errorCode` is "500" or "404"). -/
def dispatcherWriteResponse (reply : WorkerMessageReply) : Option HttpResponse :=
  if jsTruthyString reply.errorCode then
    (jsParseInt (reply.errorCode.getD "")).map (fun n => { status := n, body := reply.error })
  else
    some { status := 200, body := reply.data }

/-- The dispatcher's full `once("message")` callback (server.ts lines 47–59):
parse the worker's JSON reply through `workerMessageReplySchema`, then write
the response.  `none` models the schema rejecting the reply. -/
def dispatcherOnMessage (workerReply : Json) : Option HttpResponse :=
  (parseWorkerMessageReply workerReply).bind dispatcherWriteResponse

/-! ### Request/reply pairing on one worker

The dispatcher pairs a dispatched request with a worker reply purely by
temporal order: for each inbound request it calls `worker.send(payload)` and
then `worker.once("message", callback)` (server.ts lines 44–47).  Per Node.js
event-emitter semantics, `once` appends a listener, and when the worker sends
any reply the "message" event fires every listener registered at that moment
exactly once and removes them all.  Neither message direction carries a
correlation identifier (see `WorkerMessage` and `WorkerMessageReply`), so this
temporal pairing is all there is.  The model below tracks, for a single
worker, the registered one-shot listeners and which (request, reply) pairs are
delivered. -/

/-- State of the dispatcher's reply pairing for one worker: the pending
one-shot "message" listeners (one per dispatched request, in registration
order) and the (request, reply) deliveries so far. -/
structure PairingState where
  listeners : List Nat
  delivered : List (Nat × Nat)
deriving DecidableEq, Repr

/-- An observable event on one worker: the dispatcher dispatches request
`reqId` (send + register a `once` listener), or the worker sends reply
`replyId` (the "message" event fires: every registered listener receives this
reply and is removed). -/
inductive PairingEvent where
  | dispatch (reqId : Nat)
  | workerReply (replyId : Nat)
deriving DecidableEq, Repr

def pairingStep (s : PairingState) : PairingEvent → PairingState
  | .dispatch reqId => { s with listeners := s.listeners ++ [reqId] }
  | .workerReply replyId =>
    { listeners := [],
      delivered := s.delivered ++ s.listeners.map (fun reqId => (reqId, replyId)) }

def pairingRun (events : List PairingEvent) : PairingState :=
  events.foldl pairingStep ⟨[], []⟩

/-- How many times a given worker reply is consumed by a dispatcher-side
request handler. -/
def timesConsumed (s : PairingState) (replyId : Nat) : Nat :=
  (s.delivered.filter (fun p => p.2 == replyId)).length

/-! ### config.ts -/

/-- The possible results of `validateConfig` (src/config.ts lines 11–16),
distinguishing the function object `validateConfig` itself from a validated
configuration value. -/
inductive ValidateConfigResult where
  | functionItself
  | configValue (c : ConfigSchemaType)
deriving Repr

/-- `validateConfig` (src/config.ts lines 11–16): parse the JSON text and
validate it against `rootConfigSchema` — binding the result to
`validatedConfig` — then `return validateConfig;`: the enclosing function
object itself, not the validated configuration.  The incoming string is
modelled after `JSON.parse` as a `Json` value; `none` models `parseAsync`
rejecting. -/
def validateConfig (config : Json) : Option ValidateConfigResult :=
  (parseRootConfig config).map (fun _validatedConfig => ValidateConfigResult.functionItself)

/-! ### Spec-side definitions and plain-pattern predicates -/

/-- Spec-side rule resolution, written from the words of claim C2 and spec
§4.1 for comparison with `findRule`: the first rule in declaration order whose
path is a literal string prefix of the request path. -/
def specFirstLiteralMatch (config : ConfigSchemaType) (path : String) : Option Rule :=
  config.server.rules.find? (fun e => e.path.data.isPrefixOf path.data)

/-- A pattern character that is interpreted purely literally by the regex
construction: not a backslash, not `.`, not a special character. -/
def plainPatternChar (c : Char) : Bool :=
  !(c == '\\') && !(c == '.') && !(regexSpecialChar c)

/-- A rule path free of regex metacharacters: the regex built from it matches
literally. -/
def plainPattern (p : String) : Bool :=
  p.data.all plainPatternChar

/-- A string free of ECMAScript line terminators (every practical request URL). -/
def noLineTerminators (s : String) : Bool :=
  s.data.all (fun c => !(isLineTerminator c))

/-! ### Concrete example values -/

/-- The configuration of the README's `config.yaml`: upstreams
`jsonplaceholder` and `dummy`, rules `/test → dummy` and `/ → jsonplaceholder`. -/
def cfgExample : ConfigSchemaType :=
  { server :=
    { listen := 8080
      workers := some 2
      upstreams := [⟨"jsonplaceholder", "jsonplaceholder.typicode.com"⟩,
                    ⟨"dummy", "dummyjson.com"⟩]
      headers := none
      rules := [⟨"/test", ["dummy"]⟩, ⟨"/", ["jsonplaceholder"]⟩] } }

/-- A configuration whose single rule path contains the regex metacharacter `.`. -/
def cfgDotPattern : ConfigSchemaType :=
  { server :=
    { listen := 8080
      workers := none
      upstreams := [⟨"u", "example.com"⟩]
      headers := none
      rules := [⟨"/a.", ["u"]⟩] } }

/-- A configuration with a single non-catch-all rule, for the unmatched-path
test of spec §8. -/
def cfgOnlyTest : ConfigSchemaType :=
  { server :=
    { listen := 8080
      workers := none
      upstreams := [⟨"dummy", "dummyjson.com"⟩]
      headers := none
      rules := [⟨"/test", ["dummy"]⟩] } }

/-- A configuration whose catch-all rule references an upstream id that is not
configured. -/
def cfgGhostUpstream : ConfigSchemaType :=
  { server :=
    { listen := 8080
      workers := none
      upstreams := [⟨"real", "example.com"⟩]
      headers := none
      rules := [⟨"/", ["ghost"]⟩] } }

/-- A schema-valid configuration JSON value (as delivered through the worker
environment or the config file). -/
def jsonConfigA : Json :=
  Json.obj [("server", Json.obj
    [("listen", Json.num 8080),
     ("workers", Json.num 2),
     ("upstreams", Json.arr [Json.obj
       [("id", Json.str "jsonplaceholder"),
        ("url", Json.str "jsonplaceholder.typicode.com")]]),
     ("rules", Json.arr [Json.obj
       [("path", Json.str "/"),
        ("upstreams", Json.arr [Json.str "jsonplaceholder"])]])])]

/-- A second, different schema-valid configuration JSON value. -/
def jsonConfigB : Json :=
  Json.obj [("server", Json.obj
    [("listen", Json.num 9090),
     ("upstreams", Json.arr [Json.obj
       [("id", Json.str "dummy"), ("url", Json.str "dummyjson.com")]]),
     ("rules", Json.arr [Json.obj
       [("path", Json.str "/test"),
        ("upstreams", Json.arr [Json.str "dummy"])]])])]

end ReverseProxy

namespace ReverseProxy

/-! ### Helper lemmas -/

theorem find?_ext {α : Type} (l : List α) (f g : α → Bool)
    (h : ∀ a ∈ l, f a = g a) : l.find? f = l.find? g := by
  induction l with
  | nil => rfl
  | cons a l ih =>
    have ha := h a (List.mem_cons_self a l)
    cases hg : g a with
    | true =>
      rw [List.find?_cons_of_pos _ (ha.trans hg), List.find?_cons_of_pos _ hg]
    | false =>
      rw [List.find?_cons_of_neg _ (by simp [ha.trans hg]),
        List.find?_cons_of_neg _ (by simp [hg])]
      exact ih (fun b hb => h b (List.mem_cons_of_mem a hb))

theorem parseRegexFragment_all_plain (cs : List Char)
    (h : cs.all plainPatternChar = true) :
    parseRegexFragment cs = some (cs.map RegexAtom.lit) := by
  induction cs with
  | nil => rfl
  | cons c cs ih =>
    rw [List.all_cons, Bool.and_eq_true] at h
    obtain ⟨hc, hcs⟩ := h
    unfold plainPatternChar at hc
    rw [Bool.and_eq_true, Bool.and_eq_true] at hc
    obtain ⟨⟨h1, h2⟩, h3⟩ := hc
    rw [Bool.not_eq_true'] at h1 h2 h3
    unfold parseRegexFragment
    rw [h1, h2, h3]
    simp [ih hcs]

theorem matchAtomsThenDotStar_map_lit (cs : List Char) (s : List Char) :
    matchAtomsThenDotStar (cs.map RegexAtom.lit) s =
      (cs.isPrefixOf s && (s.drop cs.length).all (fun c => !(isLineTerminator c))) := by
  induction cs generalizing s with
  | nil => simp [matchAtomsThenDotStar, List.isPrefixOf]
  | cons c cs ih =>
    cases s with
    | nil => simp [matchAtomsThenDotStar, List.isPrefixOf]
    | cons d s =>
      simp only [List.map_cons, matchAtomsThenDotStar, atomMatches, List.isPrefixOf,
        List.drop_succ_cons, List.length_cons, ih, Bool.and_assoc]

theorem ruleMatches_plain (p url : String) (hp : plainPattern p = true)
    (hurl : noLineTerminators url = true) :
    ruleMatches p url = p.data.isPrefixOf url.data := by
  unfold plainPattern at hp
  unfold noLineTerminators at hurl
  unfold ruleMatches
  rw [parseRegexFragment_all_plain p.data hp]
  show matchAtomsThenDotStar (p.data.map RegexAtom.lit) url.data = p.data.isPrefixOf url.data
  rw [matchAtomsThenDotStar_map_lit]
  have hdrop : (url.data.drop p.data.length).all (fun c => !(isLineTerminator c)) = true := by
    rw [List.all_eq_true] at hurl ⊢
    intro c hc
    exact hurl c (List.mem_of_mem_drop hc)
  rw [hdrop, Bool.and_true]

theorem parseReply_errorCode_only (s : String) :
    parseWorkerMessageReply (Json.obj [("errorCode", Json.str s)]) =
      (if s == "500" || s == "404" then some ⟨none, none, some s⟩ else none) := by
  have key : parseWorkerMessageReply (Json.obj [("errorCode", Json.str s)]) =
      (Option.map some (if s == "500" || s == "404" then some s else none)).bind
        (fun errorCode => some ⟨none, none, errorCode⟩) := rfl
  rw [key]
  cases hs : (s == "500" || s == "404") <;> rfl

/-! ### Claim theorems -/

/-- C1.  The claim asserts exactly-once, correlationId-keyed request/reply
pairing on a worker even with concurrent in-flight requests.  The code has no
correlation identifiers: the reply schema discards any `correlationId` field
(two replies differing only in it parse identically), and the dispatcher pairs
by registering a one-shot "message" listener per request.  Evaluating the
pairing model on two concurrently dispatched requests followed by the worker's
two replies: the first reply is consumed twice (once by each pending handler)
and the second reply is consumed zero times. -/
theorem dispatcher_pairing_ambiguous_under_concurrency :
    timesConsumed (pairingRun [PairingEvent.dispatch 0, PairingEvent.dispatch 1,
      PairingEvent.workerReply 100, PairingEvent.workerReply 101]) 100 = 2 ∧
    timesConsumed (pairingRun [PairingEvent.dispatch 0, PairingEvent.dispatch 1,
      PairingEvent.workerReply 100, PairingEvent.workerReply 101]) 101 = 0 ∧
    parseWorkerMessageReply (Json.obj [("correlationId", Json.str "a"), ("data", Json.str "ok")]) =
      parseWorkerMessageReply (Json.obj [("correlationId", Json.str "b"), ("data", Json.str "ok")]) :=
  ⟨by decide, by decide, rfl⟩

/-- C2 counterexample.  Rule resolution is not literal-prefix comparison: the
rule path is spliced into a regular expression, so the path "/a." (whose `.`
is the any-character metacharacter) matches the request path "/aXb", which
does not start with the literal string "/a.". -/
theorem ruleMatches_is_regex_not_literal :
    findRule cfgDotPattern "/aXb" = some ⟨"/a.", ["u"]⟩ ∧
    specFirstLiteralMatch cfgDotPattern "/aXb" = none :=
  ⟨by decide, by decide⟩

/-- C2 amended.  Rule resolution returns the first rule in declaration order
whose path, compiled as the regex `^path.*$`, matches the request path; when
every rule path is free of regex metacharacters and the request path contains
no line terminators, this coincides with first-match literal-prefix
resolution (returning no rule exactly when no rule's path is a literal prefix
of the request path). -/
theorem findRule_eq_literal_first_match_of_plain (config : ConfigSchemaType) (url : String)
    (hplain : ∀ r ∈ config.server.rules, plainPattern r.path = true)
    (hurl : noLineTerminators url = true) :
    findRule config url = specFirstLiteralMatch config url := by
  unfold findRule specFirstLiteralMatch
  exact find?_ext _ _ _ (fun r hr => ruleMatches_plain r.path url (hplain r hr) hurl)

/-- C2 witness: the README configuration's rule paths are metacharacter-free,
so regex resolution and literal-prefix resolution agree on "/other". -/
theorem findRule_eq_literal_first_match_example :
    findRule cfgExample "/other" = specFirstLiteralMatch cfgExample "/other" :=
  findRule_eq_literal_first_match_of_plain cfgExample "/other" (by decide) (by decide)

/-- C3 counterexample.  With the README rules, the empty request path resolves
to no upstream at all: the regex `^/.*$` built from the catch-all rule "/"
requires at least the character `/`, so it does not match "" — the claim's
`resolve("") == jsonplaceholder` fails. -/
theorem resolve_empty_path_is_not_catch_all :
    resolveUpstream cfgExample "" = none := by decide

/-- C3 amended.  With rules [/test → dummy, / → jsonplaceholder]: "/test/x"
resolves to the dummy upstream, "/other" to the jsonplaceholder upstream, and
the empty path "" resolves to no upstream (no rule matches, a 404). -/
theorem resolve_readme_rules_examples :
    resolveUpstream cfgExample "/test/x" = some ⟨"dummy", "dummyjson.com"⟩ ∧
    resolveUpstream cfgExample "/other" = some ⟨"jsonplaceholder", "jsonplaceholder.typicode.com"⟩ ∧
    resolveUpstream cfgExample "" = none :=
  ⟨by decide, by decide, by decide⟩

/-- C4.  The claim says a failed upstream connection yields a reply with the
error field set and an HTTP 502/500 to the client.  Evaluating the worker on a
request matching the catch-all rule (existing upstream) whose outbound
connection fails: no reply is produced at all — the source installs no error
listener on the outbound `http.request`, so there is no error-reply path and
the error event is an unhandled fault in the worker. -/
theorem connection_failure_yields_no_reply :
    workerHandleMessage cfgExample ⟨"HTTP", "/todos"⟩
      (fun _ _ => ForwardOutcome.connectionError "ECONNREFUSED") = none := by decide

/-- C5.  For every configuration, message and forward outcome, if no rule
matches the message's URL then the worker replies with errorCode "404" and
error "Rule not found", and the dispatcher writes HTTP status 404 with body
"Rule not found" for that reply. -/
theorem unmatched_path_yields_404_rule_not_found (config : ConfigSchemaType)
    (msg : WorkerMessage) (forward : Upstream → String → ForwardOutcome)
    (h : findRule config msg.url = none) :
    workerHandleMessage config msg forward = some ruleNotFoundReply ∧
    dispatcherWriteResponse ruleNotFoundReply = some ⟨404, some "Rule not found"⟩ := by
  constructor
  · unfold workerHandleMessage
    rw [h]
  · decide

/-- C5 witness: path "/unmatched" against a configuration with a single
non-catch-all rule "/test". -/
theorem unmatched_path_yields_404_example :
    workerHandleMessage cfgOnlyTest ⟨"HTTP", "/unmatched"⟩
        (fun _ _ => ForwardOutcome.response "unused") = some ruleNotFoundReply ∧
    dispatcherWriteResponse ruleNotFoundReply = some ⟨404, some "Rule not found"⟩ :=
  unmatched_path_yields_404_rule_not_found cfgOnlyTest ⟨"HTTP", "/unmatched"⟩
    (fun _ _ => ForwardOutcome.response "unused") (by decide)

/-- C6.  For every configuration, message and forward outcome, if a rule
matches but its first upstream id is not among the configured upstreams, the
worker replies (rather than crashing) with errorCode "500" and error
"Upstream server not found", and the dispatcher writes HTTP status 500 for
that reply. -/
theorem missing_upstream_yields_500_reply (config : ConfigSchemaType)
    (msg : WorkerMessage) (forward : Upstream → String → ForwardOutcome) (rule : Rule)
    (hrule : findRule config msg.url = some rule)
    (hup : findUpstream config rule.upstreams.head? = none) :
    workerHandleMessage config msg forward = some upstreamNotFoundReply ∧
    dispatcherWriteResponse upstreamNotFoundReply = some ⟨500, some "Upstream server not found"⟩ := by
  constructor
  · simp only [workerHandleMessage, hrule, hup]
  · decide

/-- C6 witness: a catch-all rule referencing the unconfigured upstream id
"ghost". -/
theorem missing_upstream_yields_500_example :
    workerHandleMessage cfgGhostUpstream ⟨"HTTP", "/x"⟩
        (fun _ _ => ForwardOutcome.response "unused") = some upstreamNotFoundReply ∧
    dispatcherWriteResponse upstreamNotFoundReply = some ⟨500, some "Upstream server not found"⟩ :=
  missing_upstream_yields_500_reply cfgGhostUpstream ⟨"HTTP", "/x"⟩
    (fun _ _ => ForwardOutcome.response "unused") ⟨"/", ["ghost"]⟩ (by decide) (by decide)

/-- C7 counterexample.  A reply message in exactly the shape the claim
documents — carrying a correlationId and errorCode "502" — is rejected by the
worker reply schema: the enum accepts only "500" and "404". -/
theorem reply_schema_rejects_502 :
    parseWorkerMessageReply (Json.obj [("correlationId", Json.str "42"),
      ("errorCode", Json.str "502"), ("error", Json.str "Bad Gateway")]) = none := by rfl

/-- C7 amended.  The internal reply message shape is
{data?: string, error?: string, errorCode?: "500"|"404"}: the schema accepts
exactly the two errorCode values "500" and "404", and replies carry no
correlationId (the schema accepts a reply without one and strips one if
present). -/
theorem reply_schema_errorCode_exactly_500_404 :
    (∀ s : String,
      (parseWorkerMessageReply (Json.obj [("errorCode", Json.str s)])).isSome = true ↔
        (s = "500" ∨ s = "404")) ∧
    parseWorkerMessageReply (Json.obj [("data", Json.str "ok")]) = some ⟨some "ok", none, none⟩ := by
  constructor
  · intro s
    rw [parseReply_errorCode_only]
    cases hs : (s == "500" || s == "404") with
    | true =>
      simp only [if_true, Option.isSome_some, true_iff]
      rw [Bool.or_eq_true, beq_iff_eq, beq_iff_eq] at hs
      exact hs
    | false =>
      simp only [Bool.false_eq_true, if_false, Option.isSome_none, false_iff]
      rw [Bool.or_eq_false_iff, beq_eq_false_iff_ne, beq_eq_false_iff_ne] at hs
      rintro (rfl | rfl)
      · exact hs.1 rfl
      · exact hs.2 rfl
  · rfl

/-- C7 witness: errorCode "404" is accepted. -/
theorem reply_schema_accepts_404_example :
    (parseWorkerMessageReply (Json.obj [("errorCode", Json.str "404")])).isSome = true :=
  (reply_schema_errorCode_exactly_500_404.1 "404").mpr (Or.inr rfl)

/-- C8.  For every reply the dispatcher receives: a reply carrying errorCode
"404" (resp. "500" — the only schema-valid codes) produces an HTTP response
with that numeric status and the reply's error text as body; a reply carrying
no errorCode produces status 200 with the reply's data as body. -/
theorem dispatcher_response_from_reply (reply : WorkerMessageReply) :
    (reply.errorCode = some "404" →
      dispatcherWriteResponse reply = some ⟨404, reply.error⟩) ∧
    (reply.errorCode = some "500" →
      dispatcherWriteResponse reply = some ⟨500, reply.error⟩) ∧
    (reply.errorCode = none →
      dispatcherWriteResponse reply = some ⟨200, reply.data⟩) := by
  refine ⟨fun h => ?_, fun h => ?_, fun h => ?_⟩ <;>
    simp only [dispatcherWriteResponse, h] <;>
    simp [show jsTruthyString (some "404") = true from by decide,
      show jsTruthyString (some "500") = true from by decide,
      show jsTruthyString none = false from by decide,
      show jsParseInt "404" = some 404 from by decide,
      show jsParseInt "500" = some 500 from by decide]

/-- C8 witness: a "500"-tagged reply maps to HTTP 500 with the error text. -/
theorem dispatcher_response_from_reply_example :
    dispatcherWriteResponse ⟨none, some "boom", some "500"⟩ = some ⟨500, some "boom"⟩ :=
  (dispatcher_response_from_reply ⟨none, some "boom", some "500"⟩).2.1 rfl

/-- C9.  The claim says `validateConfig` resolves to the validated
configuration object.  Evaluating it on a schema-valid configuration: the
validation succeeds, yet the function resolves to the function object
`validateConfig` itself (`return validateConfig;` in src/config.ts line 15),
not to the validated configuration value. -/
theorem validateConfig_returns_function_not_config :
    (parseRootConfig jsonConfigA).isSome = true ∧
    validateConfig jsonConfigA = some ValidateConfigResult.functionItself :=
  ⟨rfl, rfl⟩

/-- C10.  Worker replies are independent of the configuration delivered via
the process environment at fork time: for any two schema-valid environment
values, the worker started with either produces the identical message handler
— rule matching and upstream lookup read only the `config` argument of
`createServer`, and the env-parsed value is bound and never used. -/
theorem worker_reply_independent_of_env_config (config : ConfigSchemaType)
    (env1 env2 : Json)
    (h1 : (parseRootConfig env1).isSome = true)
    (h2 : (parseRootConfig env2).isSome = true) :
    workerStart config env1 = workerStart config env2 := by
  rcases Option.isSome_iff_exists.mp h1 with ⟨c1, hc1⟩
  rcases Option.isSome_iff_exists.mp h2 with ⟨c2, hc2⟩
  unfold workerStart
  rw [hc1, hc2]
  rfl

/-- C10 witness: two different schema-valid environment configurations give
the same started worker. -/
theorem worker_reply_independent_of_env_config_example :
    workerStart cfgExample jsonConfigA = workerStart cfgExample jsonConfigB :=
  worker_reply_independent_of_env_config cfgExample jsonConfigA jsonConfigB rfl rfl

end ReverseProxy
